import Mathlib

/-!
Verification development for the package-publishing orchestrator
(`scripts/publish.py` of sqlalchemy-rds-iam-auth-plugin).

The script is embedded shallowly:

* the behaviour of the external world (`subprocess.run`) is a parameter
  `env : List String → CommandResult` giving, for each argument vector,
  the captured streams and exit status of the spawned process;
* observable side effects (lines printed to stdout/stderr, processes
  spawned, the interactive prompt) are recorded as a `List Event`;
* Python exceptions are values of `PyErr` threaded through `Except`;
* the filesystem state relevant to `clean_dist` (the `dist` directory and
  its immediate entries) is a small record `FS`; an entry carries a flag
  saying whether `Path.unlink` succeeds on it (false models a permission
  error or a subdirectory, where `unlink` raises `OSError`).

Function names follow the Python source (`run_command`, `clean_dist`,
`build_package`, `check_package`, `publish_test`, `publish_pypi`,
`main_run` for `main`).
-/

/-- Result of `subprocess.run(cmd, capture_output=True, text=True, ...)`:
captured stdout, captured stderr, and the exit status of the process. -/
structure CommandResult where
  stdout : String
  stderr : String
  returncode : Int
deriving DecidableEq, Repr

/-- The Python exceptions that flow through the script:
`subprocess.CalledProcessError` (carrying the return code), `OSError`
raised by filesystem operations, and `KeyboardInterrupt`. -/
inductive PyErr where
  | calledProcessError (returncode : Int)
  | osError
  | keyboardInterrupt
deriving DecidableEq, Repr

/-- Observable side effects of a run: a line printed to stdout, a line
printed to stderr, a process spawned with the given argument vector, and
the interactive prompt shown by `input`. -/
inductive Event where
  | print (s : String)
  | printErr (s : String)
  | spawn (cmd : List String)
  | input (promptText : String)
deriving DecidableEq, Repr

deriving instance DecidableEq for Except

/-- Is this event a process spawn (an external-tool invocation)? -/
def is_spawn : Event → Bool
  | Event.spawn _ => true
  | _ => false

/-- One immediate entry of the `dist` directory.  `deletable` records
whether `Path.unlink` succeeds on it; it is false for an entry the
process may not remove (permission denied) or for a subdirectory, where
`unlink` raises `OSError`. -/
structure Entry where
  name : String
  deletable : Bool
deriving DecidableEq, Repr

/-- The filesystem state the script touches: whether the `dist`
directory exists and, if so, its immediate entries (in the order
`Path.glob` yields them). -/
structure FS where
  distExists : Bool
  distEntries : List Entry
deriving DecidableEq, Repr

/-- The interpreter executable (`sys.executable` in the source); its
concrete path does not matter, only that `build_package` spawns it. -/
def sys_executable : String := "python"

/--
`run_command(cmd, check=True)` from the source:

* prints `Running: <cmd joined by spaces>`;
* calls `subprocess.run(cmd, capture_output=True, text=True, check=check)`,
  which spawns the process and, when `check` is true and the exit status
  is nonzero, raises `CalledProcessError` — before control returns to
  `run_command`, so in that case the two stream-printing `if`s below are
  never reached;
* otherwise prints the captured stdout if non-empty, prints the captured
  stderr to stderr if non-empty, and returns the result.
-/
def run_command (env : List String → CommandResult) (cmd : List String)
    (check : Bool) : Except PyErr CommandResult × List Event :=
  let pre := [Event.print ("Running: " ++ String.intercalate " " cmd), Event.spawn cmd]
  let result := env cmd
  if check = true ∧ result.returncode ≠ 0 then
    (Except.error (PyErr.calledProcessError result.returncode), pre)
  else
    (Except.ok result,
      pre ++ (if result.stdout ≠ "" then [Event.print result.stdout] else [])
          ++ (if result.stderr ≠ "" then [Event.printErr result.stderr] else []))

/-- The loop `for file in dist_dir.glob("*"): file.unlink()`.  Entries
are unlinked in order; the first entry on which `unlink` fails raises
`OSError`, leaving that entry and the ones after it in place.  Returns
the remaining entries and the raised exception, if any. -/
def unlink_all : List Entry → List Entry × Option PyErr
  | [] => ([], none)
  | e :: rest =>
    if e.deletable = true then unlink_all rest
    else (e :: rest, some PyErr.osError)

/-- What happens after the unlink loop of `clean_dist`: if the loop
raised, the exception propagates and the directory keeps the remaining
entries; otherwise `dist_dir.rmdir()` runs — it removes the directory
when empty and raises `OSError` when entries remain. -/
def clean_after_unlink : List Entry × Option PyErr → Except PyErr Unit × FS
  | (remaining, some err) => (Except.error err, FS.mk true remaining)
  | (remaining, none) =>
    if remaining = [] then (Except.ok (), FS.mk false [])
    else (Except.error PyErr.osError, FS.mk true remaining)

/-- The state transition of `clean_dist`: if the `dist` directory
exists, unlink every immediate entry, then `rmdir` it.  If the directory
does not exist, do nothing. -/
def clean_step (fs : FS) : Except PyErr Unit × FS :=
  if fs.distExists = true then clean_after_unlink (unlink_all fs.distEntries)
  else (Except.ok (), fs)

/-- `clean_dist()` from the source: prints `Cleaning dist directory...`
and performs `clean_step` on the filesystem. -/
def clean_dist (fs : FS) : Except PyErr Unit × FS × List Event :=
  ((clean_step fs).1, (clean_step fs).2, [Event.print "Cleaning dist directory..."])

/-- The argument vector of the build tool: `[sys.executable, "-m", "build"]`. -/
def build_cmd : List String := [sys_executable, "-m", "build"]

/-- The argument vector of the validation tool: `twine check dist/*`. -/
def check_cmd : List String := ["twine", "check", "dist/*"]

/-- The argument vector of the staging upload: `twine upload --repository testpypi dist/*`. -/
def test_upload_cmd : List String := ["twine", "upload", "--repository", "testpypi", "dist/*"]

/-- The argument vector of the production upload: `twine upload dist/*`. -/
def upload_cmd : List String := ["twine", "upload", "dist/*"]

/-- `build_package()` from the source: prints `Building package...` and
runs the build tool through `run_command` with `check=True`. -/
def build_package (env : List String → CommandResult) :
    Except PyErr Unit × List Event :=
  ((run_command env build_cmd true).1.map fun _ => (),
   Event.print "Building package..." :: (run_command env build_cmd true).2)

/-- `check_package()` from the source: prints `Checking package...` and
runs the validation tool through `run_command` with `check=True`. -/
def check_package (env : List String → CommandResult) :
    Except PyErr Unit × List Event :=
  ((run_command env check_cmd true).1.map fun _ => (),
   Event.print "Checking package..." :: (run_command env check_cmd true).2)

/-- `publish_test()` from the source: prints `Publishing to Test PyPI...`
and runs the staging upload through `run_command` with `check=True`. -/
def publish_test (env : List String → CommandResult) :
    Except PyErr Unit × List Event :=
  ((run_command env test_upload_cmd true).1.map fun _ => (),
   Event.print "Publishing to Test PyPI..." :: (run_command env test_upload_cmd true).2)

/-- The interactive prompt shown by `publish_pypi`. -/
def pypi_prompt : String := "Are you sure you want to publish to PyPI? (yes/no): "

/-- Python's `str.lower()`: lower-cases each character of the string.
(`Char.toLower` covers the ASCII range, which is the only range with
upper-case variants of the letters of `"yes"`, the sole string the
script compares against.) -/
def str_lower (s : String) : String := String.mk (s.data.map Char.toLower)

/-- The confirmation gate of `publish_pypi`: the upload proceeds exactly
when `response.lower() != "yes"` is false, i.e. when the response,
lower-cased, is the literal string `yes`. -/
def confirm (response : String) : Bool := str_lower response == "yes"

/-- `publish_pypi()` from the source: prints `Publishing to PyPI...`,
reads a confirmation from the interactive input (modelled by the
`response` parameter); if `response.lower() != "yes"` it prints
`Cancelled.` and returns, otherwise it runs the production upload
through `run_command` with `check=True`. -/
def publish_pypi (env : List String → CommandResult) (response : String) :
    Except PyErr Unit × List Event :=
  let pre := [Event.print "Publishing to PyPI...", Event.input pypi_prompt]
  if confirm response = false then
    (Except.ok (), pre ++ [Event.print "Cancelled."])
  else
    ((run_command env upload_cmd true).1.map fun _ => (),
     pre ++ (run_command env upload_cmd true).2)

/-- The `all` branch of `main`: `clean_dist(); build_package();
check_package()` in that order — a raised exception skips the rest —
followed by three informational prints on full success. -/
def run_all (env : List String → CommandResult) (fs : FS) :
    Except PyErr Unit × FS × List Event :=
  match (clean_dist fs).1 with
  | Except.error e => (Except.error e, (clean_dist fs).2.1, (clean_dist fs).2.2)
  | Except.ok _ =>
    match (build_package env).1 with
    | Except.error e =>
      (Except.error e, (clean_dist fs).2.1, (clean_dist fs).2.2 ++ (build_package env).2)
    | Except.ok _ =>
      match (check_package env).1 with
      | Except.error e =>
        (Except.error e, (clean_dist fs).2.1,
         (clean_dist fs).2.2 ++ (build_package env).2 ++ (check_package env).2)
      | Except.ok _ =>
        (Except.ok (), (clean_dist fs).2.1,
         (clean_dist fs).2.2 ++ (build_package env).2 ++ (check_package env).2 ++
          [Event.print "\nPackage built and checked successfully!",
           Event.print "Run \x27python scripts/publish.py test\x27 to publish to Test PyPI",
           Event.print "Run \x27python scripts/publish.py publish\x27 to publish to PyPI"])

/-- The valid values of the positional `action` argument
(`choices=["clean", "build", "check", "test", "publish", "all"]`). -/
def choices : List String := ["clean", "build", "check", "test", "publish", "all"]

/-- The `if/elif` dispatch inside the `try` block of `main`: one stage
per action (`all` is the three-stage composite).  An action outside
`choices` never reaches this point; for totality it maps to the no-op
fall-through the Python `if/elif` chain would give it. -/
def dispatch (env : List String → CommandResult) (response : String) (fs : FS) :
    String → Except PyErr Unit × FS × List Event
  | "clean" => clean_dist fs
  | "build" => ((build_package env).1, fs, (build_package env).2)
  | "check" => ((check_package env).1, fs, (check_package env).2)
  | "test" => ((publish_test env).1, fs, (publish_test env).2)
  | "publish" => ((publish_pypi env response).1, fs, (publish_pypi env response).2)
  | "all" => run_all env fs
  | _ => (Except.ok (), fs, [])

/-- How one invocation of the program ends: `exited c` is process
termination with exit status `c` (normal fall-through gives `0`,
`sys.exit(1)` gives `1`, the argument parser gives `2`); `uncaught e` is
an exception escaping `main` — the interpreter then prints a traceback
and terminates abnormally, without any of the handlers in `main`
running. -/
inductive Outcome where
  | exited (code : Int)
  | uncaught (e : PyErr)
deriving DecidableEq, Repr

/-- The result of one invocation: how the process ended, the final
filesystem state, and the recorded side effects. -/
structure MainResult where
  outcome : Outcome
  fs : FS
  events : List Event
deriving DecidableEq, Repr

/-- The success marker printed after the dispatched handler returns. -/
def success_marker : String := "✓ Action completed successfully!"

/-- The `try/except` tail of `main`, applied to the outcome of the
dispatched stage: normal return falls through to the success print and
exit status 0; `except subprocess.CalledProcessError` prints the failure
marker with the return code and exits 1; `except KeyboardInterrupt`
prints the cancellation notice and exits 1.  No handler matches
`OSError`, so a filesystem error escapes `main` uncaught. -/
def main_tail : Except PyErr Unit → FS → List Event → MainResult
  | Except.ok _, fs2, ev =>
    MainResult.mk (Outcome.exited 0) fs2 (ev ++ [Event.print success_marker])
  | Except.error (PyErr.calledProcessError rc), fs2, ev =>
    MainResult.mk (Outcome.exited 1) fs2
      (ev ++ [Event.print ("✗ Command failed with exit code " ++ toString rc)])
  | Except.error PyErr.keyboardInterrupt, fs2, ev =>
    MainResult.mk (Outcome.exited 1) fs2 (ev ++ [Event.print "\n✗ Cancelled by user"])
  | Except.error PyErr.osError, fs2, ev =>
    MainResult.mk (Outcome.uncaught PyErr.osError) fs2 ev

/-- `main()` from the source.  `argparse` first validates the positional
`action` against `choices`; on an invalid token it prints a usage
message and terminates the process with exit status 2, its documented
behaviour for argument errors, before any stage runs.  On a valid token
the dispatched stage runs inside the single `try/except` modelled by
`main_tail`. -/
def main_run (env : List String → CommandResult) (response : String)
    (fs : FS) (action : String) : MainResult :=
  if action ∈ choices then
    main_tail (dispatch env response fs action).1
      (dispatch env response fs action).2.1 (dispatch env response fs action).2.2
  else MainResult.mk (Outcome.exited 2) fs []

/-! ## Helper definitions and lemmas -/

/-- Case-insensitive string equality, the notion used by the spec for
the confirmation gate (Python compares via `.lower()` on both sides). -/
def case_insensitive_eq (a b : String) : Bool := str_lower a == str_lower b

lemma yes_str_lower : str_lower "yes" = "yes" := by decide

/-- A benign environment: every command succeeds with empty streams. -/
def env_ok : List String → CommandResult := fun _ => CommandResult.mk "" "" 0

/-- An environment in which every command exits with status 3. -/
def env_fail3 : List String → CommandResult := fun _ => CommandResult.mk "" "" 3

/-- An environment whose command produces non-empty captured streams and
exits with status 3. -/
def env_noisy_fail : List String → CommandResult :=
  fun _ => CommandResult.mk "tool output" "tool error" 3

/-- An environment whose command produces non-empty captured streams and
exits with status 0. -/
def env_noisy_ok : List String → CommandResult :=
  fun _ => CommandResult.mk "tool output" "tool error" 0

/-- An empty filesystem: no `dist` directory. -/
def fs_empty : FS := FS.mk false []

/-- A filesystem whose `dist` directory holds one entry that cannot be
unlinked (for instance a file the process may not remove). -/
def fs_bad : FS := FS.mk true [Entry.mk "stale.whl" false]

/-- A filesystem whose `dist` directory holds one deletable stale entry. -/
def fs_stale : FS := FS.mk true [Entry.mk "stale.whl" true]

/-! ## C1 -/

/-- C1: the confirmation gate returns true exactly when the response,
compared case-insensitively, equals the literal string `yes`; the
inputs `""`, `"y"`, `"Yes please"` and `"no"` all return false, while
`"yes"`, `"YES"` and `"Yes"` return true. -/
theorem C1_confirmation_gate :
    (∀ r : String, confirm r = true ↔ case_insensitive_eq r "yes" = true) ∧
    confirm "" = false ∧ confirm "y" = false ∧ confirm "Yes please" = false ∧
    confirm "no" = false ∧
    confirm "yes" = true ∧ confirm "YES" = true ∧ confirm "Yes" = true := by
  refine ⟨fun r => ?_, by decide, by decide, by decide, by decide, by decide, by decide, by decide⟩
  unfold confirm case_insensitive_eq
  rw [yes_str_lower]

/-! ## C2 -/

/-- C2: when the confirmation gate denies, `publish_pypi` returns
normally (a success outcome, not an exception) and spawns no process at
all — in particular, zero upload invocations are performed. -/
theorem C2_gate_denial (env : List String → CommandResult) (r : String)
    (h : confirm r = false) :
    (publish_pypi env r).1 = Except.ok () ∧
    (publish_pypi env r).2.filter is_spawn = [] := by
  unfold publish_pypi
  rw [h]
  simp [is_spawn]

/-- Witness for C2 at the concrete response `"no"`. -/
theorem C2_gate_denial_witness :
    (publish_pypi env_ok "no").1 = Except.ok () ∧
    (publish_pypi env_ok "no").2.filter is_spawn = [] :=
  C2_gate_denial env_ok "no" (by decide)

/-! ## C6 -/

/-- C6: for any command whose exit status is nonzero, `run_command` with
`check=true` raises `CalledProcessError` carrying that exit status,
while with `check=false` it returns the result — the nonzero status is
data in the returned `CommandResult`, and nothing is raised. -/
theorem C6_check_semantics (env : List String → CommandResult) (cmd : List String)
    (h : (env cmd).returncode ≠ 0) :
    (run_command env cmd true).1 =
      Except.error (PyErr.calledProcessError (env cmd).returncode) ∧
    (run_command env cmd false).1 = Except.ok (env cmd) := by
  unfold run_command
  constructor
  · rw [if_pos ⟨rfl, h⟩]
  · rw [if_neg (by simp)]

/-- Witness for C6: a command exiting with status 3 raises
`CalledProcessError` carrying 3 under `check=true`, and under
`check=false` returns a result whose `returncode` field is 3. -/
theorem C6_check_semantics_witness :
    ((run_command env_fail3 ["tool"] true).1 =
        Except.error (PyErr.calledProcessError 3) ∧
      (run_command env_fail3 ["tool"] false).1 = Except.ok (env_fail3 ["tool"])) ∧
    (env_fail3 ["tool"]).returncode = 3 :=
  ⟨C6_check_semantics env_fail3 ["tool"] (by decide), by decide⟩

/-! ## C4 -/

/-- Counterexample to C4: with `check=true` and a nonzero exit status,
`subprocess.run` raises before `run_command` reaches its printing
statements, so the non-empty captured stdout and stderr are NOT written
to the caller's streams — pass-through does not hold for every
invocation regardless of exit status. -/
theorem C4_counterexample :
    (env_noisy_fail ["tool"]).stdout ≠ "" ∧
    (env_noisy_fail ["tool"]).stderr ≠ "" ∧
    (run_command env_noisy_fail ["tool"] true).1 =
      Except.error (PyErr.calledProcessError 3) ∧
    Event.print (env_noisy_fail ["tool"]).stdout ∉
      (run_command env_noisy_fail ["tool"] true).2 ∧
    Event.printErr (env_noisy_fail ["tool"]).stderr ∉
      (run_command env_noisy_fail ["tool"] true).2 := by
  decide

/-- C4 amended: for every invocation of the command runner that does not
raise — that is, whenever `check` is false or the exit status is zero —
the captured stdout is written to the caller's stdout if non-empty and
the captured stderr to the caller's stderr if non-empty; when `check` is
true and the exit status is nonzero, `CalledProcessError` is raised
before the printing statements, so neither stream is written. -/
theorem C4_passthrough (env : List String → CommandResult)
    (cmd : List String) (check : Bool)
    (h : check = false ∨ (env cmd).returncode = 0) :
    ((env cmd).stdout ≠ "" →
      Event.print (env cmd).stdout ∈ (run_command env cmd check).2) ∧
    ((env cmd).stderr ≠ "" →
      Event.printErr (env cmd).stderr ∈ (run_command env cmd check).2) := by
  have hcond : ¬ (check = true ∧ (env cmd).returncode ≠ 0) := by
    rcases h with h | h
    · rintro ⟨h1, -⟩
      rw [h] at h1
      exact Bool.false_ne_true h1
    · rintro ⟨-, h2⟩
      exact h2 h
  unfold run_command
  rw [if_neg hcond]
  constructor
  · intro hs
    rw [if_pos hs]
    simp
  · intro hs
    rw [if_pos hs]
    simp

/-- Witness for the amended C4: a command that exits 0 with non-empty
streams has both streams passed through. -/
theorem C4_passthrough_witness :
    ((env_noisy_ok ["tool"]).stdout ≠ "" →
      Event.print (env_noisy_ok ["tool"]).stdout ∈
        (run_command env_noisy_ok ["tool"] true).2) ∧
    ((env_noisy_ok ["tool"]).stderr ≠ "" →
      Event.printErr (env_noisy_ok ["tool"]).stderr ∈
        (run_command env_noisy_ok ["tool"] true).2) :=
  C4_passthrough env_noisy_ok ["tool"] true (Or.inr (by decide))

/-! ## Clean-stage lemmas -/

lemma unlink_all_of_all_deletable (l : List Entry)
    (h : ∀ e ∈ l, e.deletable = true) : unlink_all l = ([], none) := by
  induction l with
  | nil => rfl
  | cons a rest ih =>
    unfold unlink_all
    rw [if_pos (h a (List.mem_cons_self a rest))]
    exact ih (fun x hx => h x (List.mem_cons_of_mem a hx))

lemma unlink_all_err_of_exists (l : List Entry)
    (h : ∃ e ∈ l, e.deletable = false) :
    (unlink_all l).2 = some PyErr.osError := by
  induction l with
  | nil =>
    rcases h with ⟨e, he, -⟩
    cases he
  | cons a rest ih =>
    unfold unlink_all
    by_cases ha : a.deletable = true
    · rw [if_pos ha]
      apply ih
      rcases h with ⟨e, he, hf⟩
      rcases List.mem_cons.mp he with rfl | hmem
      · rw [ha] at hf
        cases hf
      · exact ⟨e, hmem, hf⟩
    · rw [if_neg ha]

lemma clean_step_absent (fs : FS) (h : fs.distExists = false) :
    clean_step fs = (Except.ok (), fs) := by
  unfold clean_step
  rw [h]
  simp

lemma clean_step_all_deletable (fs : FS) (h : fs.distExists = true)
    (hall : ∀ e ∈ fs.distEntries, e.deletable = true) :
    clean_step fs = (Except.ok (), FS.mk false []) := by
  unfold clean_step
  rw [if_pos h, unlink_all_of_all_deletable fs.distEntries hall]
  rfl

lemma clean_after_unlink_some (rem : List Entry) (err : PyErr) :
    clean_after_unlink (rem, some err) = (Except.error err, FS.mk true rem) := rfl

lemma clean_after_unlink_none (rem : List Entry) :
    clean_after_unlink (rem, none) =
      if rem = [] then (Except.ok (), FS.mk false [])
      else (Except.error PyErr.osError, FS.mk true rem) := rfl

lemma clean_step_err (fs : FS) (h : fs.distExists = true)
    (hex : ∃ e ∈ fs.distEntries, e.deletable = false) :
    (clean_step fs).1 = Except.error PyErr.osError := by
  unfold clean_step
  rw [if_pos h]
  have h2 := unlink_all_err_of_exists fs.distEntries hex
  have hu : unlink_all fs.distEntries =
      ((unlink_all fs.distEntries).1, some PyErr.osError) := by
    rw [← h2]
  rw [hu, clean_after_unlink_some]

lemma clean_step_ok_removed (fs : FS) (h : fs.distExists = true)
    (hok : (clean_step fs).1 = Except.ok ()) :
    (clean_step fs).2 = FS.mk false [] := by
  unfold clean_step at hok ⊢
  rw [if_pos h] at hok ⊢
  cases hopt : (unlink_all fs.distEntries).2 with
  | some err =>
    have hu : unlink_all fs.distEntries =
        ((unlink_all fs.distEntries).1, some err) := by
      rw [← hopt]
    rw [hu, clean_after_unlink_some] at hok
    simp at hok
  | none =>
    have hu : unlink_all fs.distEntries =
        ((unlink_all fs.distEntries).1, none) := by
      rw [← hopt]
    rw [hu, clean_after_unlink_none] at hok ⊢
    by_cases hr : (unlink_all fs.distEntries).1 = []
    · rw [if_pos hr]
    · rw [if_neg hr] at hok
      simp at hok

lemma clean_step_ok_no_dist (fs : FS) (hok : (clean_step fs).1 = Except.ok ()) :
    (clean_step fs).2.distExists = false := by
  cases hb : fs.distExists
  · rw [clean_step_absent fs hb]
    exact hb
  · rw [clean_step_ok_removed fs hb hok]

/-! ## C7 -/

/-- C7: when the `dist` directory exists, `clean_dist` deletes every
immediate entry and removes the now-empty directory (when every entry is
deletable); it raises `OSError` when some entry cannot be deleted; and
whenever it returns normally the directory is gone with no entry left —
it never silently leaves stale files. -/
theorem C7_clean_contract (fs : FS) (h : fs.distExists = true) :
    ((∀ e ∈ fs.distEntries, e.deletable = true) →
      clean_dist fs =
        (Except.ok (), FS.mk false [], [Event.print "Cleaning dist directory..."])) ∧
    ((∃ e ∈ fs.distEntries, e.deletable = false) →
      (clean_dist fs).1 = Except.error PyErr.osError) ∧
    ((clean_dist fs).1 = Except.ok () → (clean_dist fs).2.1 = FS.mk false []) := by
  refine ⟨?_, ?_, ?_⟩
  · intro hall
    unfold clean_dist
    rw [clean_step_all_deletable fs h hall]
  · intro hex
    exact clean_step_err fs h hex
  · intro hok
    exact clean_step_ok_removed fs h hok

/-- Witness for C7 on a `dist` directory holding one deletable stale
entry: the entry is deleted, the directory removed, and the run succeeds. -/
theorem C7_clean_contract_witness :
    clean_dist fs_stale =
      (Except.ok (), FS.mk false [], [Event.print "Cleaning dist directory..."]) :=
  (C7_clean_contract fs_stale (by decide)).1 (by decide)

/-! ## C8 -/

/-- C8: `clean_dist` is idempotent — when the `dist` directory does not
exist it succeeds as a no-op leaving the filesystem unchanged, and after
any successful invocation a second invocation also succeeds and changes
nothing. -/
theorem C8_clean_idempotent (fs : FS) :
    (fs.distExists = false →
      clean_dist fs = (Except.ok (), fs, [Event.print "Cleaning dist directory..."])) ∧
    ((clean_dist fs).1 = Except.ok () →
      (clean_dist (clean_dist fs).2.1).1 = Except.ok () ∧
      (clean_dist (clean_dist fs).2.1).2.1 = (clean_dist fs).2.1) := by
  constructor
  · intro h
    unfold clean_dist
    rw [clean_step_absent fs h]
  · intro hok
    have h1 : (clean_step fs).2.distExists = false := clean_step_ok_no_dist fs hok
    have h2 := clean_step_absent (clean_step fs).2 h1
    constructor
    · show (clean_step (clean_step fs).2).1 = Except.ok ()
      rw [h2]
    · show (clean_step (clean_step fs).2).2 = (clean_step fs).2
      rw [h2]

/-- Witness for C8: on the absent-directory filesystem the no-op clause
applies, and running clean twice from a stale directory is fine. -/
theorem C8_clean_idempotent_witness :
    clean_dist fs_empty =
      (Except.ok (), fs_empty, [Event.print "Cleaning dist directory..."]) ∧
    ((clean_dist (clean_dist fs_stale).2.1).1 = Except.ok () ∧
      (clean_dist (clean_dist fs_stale).2.1).2.1 = (clean_dist fs_stale).2.1) :=
  ⟨(C8_clean_idempotent fs_empty).1 (by decide),
   (C8_clean_idempotent fs_stale).2 (by decide)⟩

/-! ## Command-runner and stage lemmas -/

lemma run_command_err (env : List String → CommandResult) (cmd : List String)
    (h : (env cmd).returncode ≠ 0) :
    (run_command env cmd true).1 =
      Except.error (PyErr.calledProcessError (env cmd).returncode) := by
  unfold run_command
  rw [if_pos ⟨rfl, h⟩]

lemma run_command_ret_ok (env : List String → CommandResult) (cmd : List String)
    (h : (env cmd).returncode = 0) :
    (run_command env cmd true).1 = Except.ok (env cmd) := by
  unfold run_command
  rw [if_neg (by simp [h])]

lemma run_command_spawn (env : List String → CommandResult) (cmd : List String)
    (check : Bool) :
    (run_command env cmd check).2.filter is_spawn = [Event.spawn cmd] := by
  unfold run_command
  dsimp only
  split_ifs with h1 h2 h3 <;> simp [is_spawn, List.filter]

lemma run_command_err_events (env : List String → CommandResult)
    (cmd : List String) (h : (env cmd).returncode ≠ 0) :
    (run_command env cmd true).2 =
      [Event.print ("Running: " ++ String.intercalate " " cmd), Event.spawn cmd] := by
  unfold run_command
  dsimp only
  rw [if_pos ⟨rfl, h⟩]

lemma build_package_err (env : List String → CommandResult)
    (h : (env build_cmd).returncode ≠ 0) :
    (build_package env).1 =
      Except.error (PyErr.calledProcessError (env build_cmd).returncode) := by
  unfold build_package
  rw [run_command_err env build_cmd h]
  rfl

lemma build_package_ok (env : List String → CommandResult)
    (h : (env build_cmd).returncode = 0) :
    (build_package env).1 = Except.ok () := by
  unfold build_package
  rw [run_command_ret_ok env build_cmd h]
  rfl

lemma check_package_err (env : List String → CommandResult)
    (h : (env check_cmd).returncode ≠ 0) :
    (check_package env).1 =
      Except.error (PyErr.calledProcessError (env check_cmd).returncode) := by
  unfold check_package
  rw [run_command_err env check_cmd h]
  rfl

lemma check_package_ok (env : List String → CommandResult)
    (h : (env check_cmd).returncode = 0) :
    (check_package env).1 = Except.ok () := by
  unfold check_package
  rw [run_command_ret_ok env check_cmd h]
  rfl

lemma build_package_spawn (env : List String → CommandResult) :
    (build_package env).2.filter is_spawn = [Event.spawn build_cmd] := by
  unfold build_package
  simp [List.filter, is_spawn, run_command_spawn env build_cmd true]

lemma check_package_spawn (env : List String → CommandResult) :
    (check_package env).2.filter is_spawn = [Event.spawn check_cmd] := by
  unfold check_package
  simp [List.filter, is_spawn, run_command_spawn env check_cmd true]

/-! ## C5 -/

/-- C5: the `all` action runs Clean, then Build, then Check, in that
fixed order, and halts immediately after the first failing stage.  The
spawn trace makes the order and the halting visible: when Clean succeeds
and the build tool fails, only the build tool was invoked, Check is never
spawned and the run fails with the build tool's exit status; when the
build tool succeeds, exactly Build then Check are invoked in that order;
when Clean itself fails, no external tool is invoked at all. -/
theorem C5_all_order_halt (env : List String → CommandResult) (fs : FS) :
    ((clean_dist fs).1 = Except.ok () → (env build_cmd).returncode ≠ 0 →
      (run_all env fs).2.2.filter is_spawn = [Event.spawn build_cmd] ∧
      Event.spawn check_cmd ∉ (run_all env fs).2.2 ∧
      (run_all env fs).1 =
        Except.error (PyErr.calledProcessError (env build_cmd).returncode)) ∧
    ((clean_dist fs).1 = Except.ok () → (env build_cmd).returncode = 0 →
      (run_all env fs).2.2.filter is_spawn =
        [Event.spawn build_cmd, Event.spawn check_cmd]) ∧
    (∀ e, (clean_dist fs).1 = Except.error e →
      (run_all env fs).2.2.filter is_spawn = []) := by
  refine ⟨fun hclean hbuild => ?_, fun hclean hbuild => ?_, fun e hclean => ?_⟩
  · unfold run_all
    rw [hclean, build_package_err env hbuild]
    have hev2 : (build_package env).2 =
        [Event.print "Building package...",
         Event.print ("Running: " ++ String.intercalate " " build_cmd),
         Event.spawn build_cmd] := by
      unfold build_package
      rw [run_command_err_events env build_cmd hbuild]
    have hfilter :
        ((clean_dist fs).2.2 ++ (build_package env).2).filter is_spawn =
          [Event.spawn build_cmd] := by
      simp [hev2, clean_dist, is_spawn, List.filter, run_command_spawn]
    refine ⟨hfilter, ?_, rfl⟩
    intro hmem
    have hin : Event.spawn check_cmd ∈
        ((clean_dist fs).2.2 ++ (build_package env).2).filter is_spawn :=
      List.mem_filter.mpr ⟨hmem, rfl⟩
    rw [hfilter] at hin
    exact absurd hin (by decide)
  · unfold run_all
    rw [hclean, build_package_ok env hbuild]
    by_cases hcheck : (env check_cmd).returncode = 0
    · rw [check_package_ok env hcheck]
      simp [List.filter_append, run_command_spawn, build_package, check_package,
        clean_dist, List.filter, is_spawn]
    · rw [check_package_err env hcheck]
      simp [List.filter_append, run_command_spawn, build_package, check_package,
        clean_dist, List.filter, is_spawn]
  · unfold run_all
    rw [hclean]
    rfl

/-- Witness for C5: with an environment in which every tool exits 3 and
no `dist` directory, Clean succeeds, Build fails, and Check is never
invoked. -/
theorem C5_all_order_halt_witness :
    (run_all env_fail3 fs_empty).2.2.filter is_spawn = [Event.spawn build_cmd] ∧
    Event.spawn check_cmd ∉ (run_all env_fail3 fs_empty).2.2 ∧
    (run_all env_fail3 fs_empty).1 =
      Except.error (PyErr.calledProcessError (env_fail3 build_cmd).returncode) :=
  (C5_all_order_halt env_fail3 fs_empty).1 rfl (by decide)

/-! ## C3 -/

/-- Counterexample to C3: a `FilesystemError` (Python `OSError`) raised
by the Clean stage is NOT caught at the orchestrator boundary — `main`
has handlers only for `subprocess.CalledProcessError` and
`KeyboardInterrupt` — so with a `dist` entry that cannot be deleted the
run ends with the exception escaping `main` (`Outcome.uncaught`), and no
failure report is printed: the recorded output is just the stage's own
progress line. -/
theorem C3_counterexample :
    (main_run env_ok "" fs_bad "clean").outcome = Outcome.uncaught PyErr.osError ∧
    (main_run env_ok "" fs_bad "clean").events =
      [Event.print "Cleaning dist directory..."] := by
  decide

/-- C3 amended: any stage raising `CommandFailed` is caught exactly once
at the orchestrator boundary, reported to the user with the underlying
exit status, and mapped to the nonzero process exit code 1; a
`FilesystemError`, however, is not caught by the orchestrator — it
propagates out of `main` uncaught (the interpreter then terminates the
process abnormally, without the orchestrator's report). -/
theorem C3_command_failure_caught (env : List String → CommandResult)
    (resp : String) (fs : FS) (action : String) (rc : Int)
    (hmem : action ∈ choices)
    (h : (dispatch env resp fs action).1 =
      Except.error (PyErr.calledProcessError rc)) :
    (main_run env resp fs action).outcome = Outcome.exited 1 ∧
    Event.print ("✗ Command failed with exit code " ++ toString rc) ∈
      (main_run env resp fs action).events := by
  unfold main_run
  rw [if_pos hmem, h]
  refine ⟨rfl, ?_⟩
  simp [main_tail]

/-- Witness for the amended C3: the `build` action against a build tool
exiting 3 is caught, reported with exit code 3, and mapped to process
exit 1. -/
theorem C3_command_failure_caught_witness :
    (main_run env_fail3 "" fs_empty "build").outcome = Outcome.exited 1 ∧
    Event.print ("✗ Command failed with exit code " ++ toString (3 : Int)) ∈
      (main_run env_fail3 "" fs_empty "build").events :=
  C3_command_failure_caught env_fail3 "" fs_empty "build" 3 (by decide) (by decide)

/-! ## C9 -/

/-- C9: an action token outside the valid set makes the argument parser
terminate the process with exit status 2 — the usage-error code,
distinct from the exit status 1 used for stage failures — before any
stage runs: the filesystem is untouched and no event (no print, no
spawn) is recorded. -/
theorem C9_invalid_action (env : List String → CommandResult)
    (resp : String) (fs : FS) (action : String) (h : action ∉ choices) :
    main_run env resp fs action = MainResult.mk (Outcome.exited 2) fs [] := by
  unfold main_run
  rw [if_neg h]

/-- Witness for C9 at the invalid token `"deploy"`. -/
theorem C9_invalid_action_witness :
    main_run env_ok "" fs_empty "deploy" =
      MainResult.mk (Outcome.exited 2) fs_empty [] :=
  C9_invalid_action env_ok "" fs_empty "deploy" (by decide)

/-! ## C10 -/

/-- C10: whenever the dispatched handler returns without raising, `main`
prints the success marker line and the process exits with status 0. -/
theorem C10_success_marker (env : List String → CommandResult)
    (resp : String) (fs : FS) (action : String)
    (hmem : action ∈ choices)
    (hok : (dispatch env resp fs action).1 = Except.ok ()) :
    (main_run env resp fs action).outcome = Outcome.exited 0 ∧
    Event.print success_marker ∈ (main_run env resp fs action).events := by
  unfold main_run
  rw [if_pos hmem, hok]
  refine ⟨rfl, ?_⟩
  simp [main_tail]

/-- Witness for C10 at the cancelled production publish: action
`publish` with interactive response `"no"` performs no upload, yet the
success marker is printed and the process exits 0. -/
theorem C10_success_marker_witness :
    ((main_run env_ok "no" fs_empty "publish").outcome = Outcome.exited 0 ∧
      Event.print success_marker ∈ (main_run env_ok "no" fs_empty "publish").events) ∧
    (main_run env_ok "no" fs_empty "publish").events.filter is_spawn = [] :=
  ⟨C10_success_marker env_ok "no" fs_empty "publish" (by decide) (by decide),
   by decide⟩
